import Mathlib

/-!
Verification of ana2am: alert enrichment and message compilation

A shallow embedding of `main.go`: the records `Alerting` and `AlertingRule`,
the table `ALERTING_NAME_EN`, `timeIn`, `buildAlertmanagerMessage` and the
body of the polling closure `fn` of `main`.

Conventions of the embedding.

* A Go `string` is a Lean `String`; the separators and the marker searched for
  are ASCII, so splitting and searching by character agrees with Go's byte-wise
  behaviour on every valid UTF-8 string.
* `float32` and `float64` are type parameters `F32` and `F64`; the rendering of
  the verb `%.2f` is a field of the environment `Env`.
* A run-time panic is an explicit outcome: functions that may panic return
  `Except GoPanic _`.  A nil pointer result (`*template.Alert`) is `Option`.
* What the Go standard library reads from the process environment (the time
  zone database and the local time zone) is a field of `Env`, and so is the
  RFC 3339 renderer of package `time`, whose results at the far ends of the
  64-bit range depend on the version of the package.
-/

namespace Ana2am

set_option maxRecDepth 100000

/-! ## Go standard library: `strings` -/

/-- Fields of a character list cut at every occurrence of `sep`; there is always
at least one field, and the empty list has the single empty field. -/
def splitChars (sep : Char) : List Char → List (List Char)
  | [] => [[]]
  | c :: cs =>
    if c = sep then [] :: splitChars sep cs
    else
      match splitChars sep cs with
      | [] => [[c]]
      | f :: fs => (c :: f) :: fs

/-- Go `strings.Split(s, sep)` for a separator `sep` of one character. -/
def stringsSplit (s : String) (sep : Char) : List String :=
  (splitChars sep s.data).map String.mk

/-- Whether `pat` occurs in `s` as a contiguous block. -/
def containsChars (pat : List Char) : List Char → Bool
  | [] => pat.isEmpty
  | c :: cs => pat.isPrefixOf (c :: cs) || containsChars pat cs

/-- Go `strings.Contains(s, substr)`. -/
def stringsContains (s substr : String) : Bool :=
  containsChars substr.data s.data

/-! ## Go standard library: `strconv.ParseInt(s, 10, 64)` -/

/-- The two errors of `strconv`: `ErrSyntax` and `ErrRange`. -/
inductive NumError where
  | ErrSyntax
  | ErrRange
  deriving DecidableEq, Repr

/-- Largest `uint64`. -/
def maxUint64 : Nat := 2 ^ 64 - 1

/-- The digit loop of `strconv.ParseUint(s, 10, 64)`, `n` being the value read so
far.  A character that is not a decimal digit is a syntax error with value 0 (in
base 10 the letters are digits not below the base); an overflow stops the loop at
once with the value `maxUint64` and a range error, the rest of the string unread. -/
def parseUintLoop : List Char → Nat → Nat × Option NumError
  | [], n => (n, none)
  | c :: cs, n =>
    if '0' ≤ c ∧ c ≤ '9' then
      let d := c.toNat - '0'.toNat
      if n ≥ maxUint64 / 10 + 1 then (maxUint64, some NumError.ErrRange)
      else
        let n10 := n * 10
        let n1 := (n10 + d) % 2 ^ 64
        if n1 < n10 ∨ n1 > maxUint64 then (maxUint64, some NumError.ErrRange)
        else parseUintLoop cs n1
    else (0, some NumError.ErrSyntax)

/-- Go `strconv.ParseUint(s, 10, 64)` on the characters of `s`. -/
def parseUint (s : List Char) : Nat × Option NumError :=
  match s with
  | [] => (0, some NumError.ErrSyntax)
  | _ => parseUintLoop s 0

/-- Go `strconv.ParseInt(s, 10, 64)`: the value, and the error if any.  On a
syntax error the value is 0; on a range error it is the nearest bound of `int64`. -/
def parseInt (s : String) : Int × Option NumError :=
  match s.data with
  | [] => (0, some NumError.ErrSyntax)
  | c :: cs =>
    let neg : Bool := c = '-'
    let digits := if c = '+' ∨ c = '-' then cs else c :: cs
    match parseUint digits with
    | (_, some NumError.ErrSyntax) => (0, some NumError.ErrSyntax)
    | (un, _) =>
      if !neg && un ≥ 2 ^ 63 then ((2 : Int) ^ 63 - 1, some NumError.ErrRange)
      else if neg && un > 2 ^ 63 then (-(2 : Int) ^ 63, some NumError.ErrRange)
      else (if neg then -(un : Int) else (un : Int), none)

/-- The number written by the decimal digits `ds`, read after the value `n`. -/
def decimalFrom (n : Nat) (ds : List Char) : Nat :=
  ds.foldl (fun n c => n * 10 + (c.toNat - '0'.toNat)) n

/-! ## Go standard library: `time` -/

/-- A `*time.Location`: its name and the offset, in seconds east of UTC, in force
at a Unix instant. -/
structure Location where
  name : String
  lookup : Int → Int

/-- A `time.Time` with a whole number of seconds: the Unix time and the location
it is shown in. -/
structure Time where
  sec : Int
  loc : Location

/-- Seconds from the absolute epoch of package `time` up to Go 1.22 (1 January of
the year -292277022399) to the Unix epoch: `unixToInternal + internalToAbsolute`. -/
def unixToAbsolute : Int := 9223372028715321600

/-- The year of the absolute epoch. -/
def absoluteZeroYear : Int := -292277022399

/-- Go `Time.abs` with the zone offset given, as in package `time` up to Go 1.22:
the seconds since the absolute epoch as a `uint64`.  Later versions of the
package place the absolute epoch ten months earlier; they give the same date for
every instant from the absolute epoch of this definition on, and differ before
it. -/
def absSeconds (sec off : Int) : Nat :=
  ((sec + off + unixToAbsolute) % (2 : Int) ^ 64).toNat

/-- Go `isLeap`. -/
def isLeap (year : Int) : Bool :=
  year % 4 = 0 && (year % 100 ≠ 0 || year % 400 = 0)

/-- The table `daysBefore` of package `time`. -/
def daysBefore : List Nat := [0, 31, 59, 90, 120, 151, 181, 212, 243, 273, 304, 334, 365]

/-- Go `absDate(abs, true)`: year, month (January is 1) and day of the month. -/
def absDate (abs : Nat) : Int × Nat × Nat :=
  let d := abs / 86400
  let n := d / 146097
  let y := 400 * n
  let d := d - 146097 * n
  let n := d / 36524
  let n := n - n / 4
  let y := y + 100 * n
  let d := d - 36524 * n
  let n := d / 1461
  let y := y + 4 * n
  let d := d - 1461 * n
  let n := d / 365
  let n := n - n / 4
  let y := y + n
  let d := d - 365 * n
  let year : Int := (y : Int) + absoluteZeroYear
  if isLeap year && d == 31 + 29 - 1 then (year, 2, 29)
  else
    let day := if isLeap year && d > 31 + 29 - 1 then d - 1 else d
    let month := day / 31
    let stop := daysBefore.getD (month + 1) 0
    if day ≥ stop then (year, month + 2, day - stop + 1)
    else (year, month + 1, day - daysBefore.getD month 0 + 1)

/-- The decimal digits of `n`, least significant first, at least `width` of them
and at most 20 (a 64-bit value has no more). -/
def digitsRev : Nat → Nat → Nat → List Char
  | 0, _, _ => []
  | fuel + 1, width, n =>
    if n < 10 ∧ width ≤ 1 then [Char.ofNat (48 + n)]
    else Char.ofNat (48 + n % 10) :: digitsRev fuel (width - 1) (n / 10)

/-- Go `appendInt(b, x, width)`: a minus sign for a negative `x`, then its
decimal digits padded with zeros to `width`. -/
def appendInt (x : Int) (width : Nat) : String :=
  (if x < 0 then "-" else "") ++ String.mk (digitsRev 20 width x.natAbs).reverse

/-- The zone part `Z07:00` of a layout: `Z` for the offset 0, else sign, hours
and minutes of the offset truncated to minutes. -/
def formatZone (off : Int) : String :=
  if off = 0 then "Z"
  else
    let zone := off.natAbs / 60
    (if off < 0 ∧ zone ≠ 0 then "-" else "+")
      ++ appendInt (zone / 60) 2 ++ ":" ++ appendInt (zone % 60) 2

/-- Go `t.Format(time.RFC3339)`, layout `2006-01-02T15:04:05Z07:00`, as computed by
package `time` up to Go 1.22.  It is the renderer of the sample environments
below; the program itself is embedded over the renderer of its environment, the
field `rfc3339` of `Env`. -/
def formatRFC3339 (t : Time) : String :=
  let off := t.loc.lookup t.sec
  let abs := absSeconds t.sec off
  let date := absDate abs
  let clock := abs % 86400
  appendInt date.1 4 ++ "-" ++ appendInt date.2.1 2 ++ "-" ++ appendInt date.2.2 2
    ++ "T" ++ appendInt (clock / 3600) 2 ++ ":" ++ appendInt (clock % 3600 / 60) 2
    ++ ":" ++ appendInt (clock % 60) 2 ++ formatZone off

/-! ## The process environment -/

/-- What the program takes from its surroundings: the rendering of `%.2f` for
both float widths, the method `Format(time.RFC3339)` of the `time` package the
program is built with, the time zone database behind `time.LoadLocation`, and
the local zone `time.Local` of the process. -/
structure Env (F32 F64 : Type) where
  fmt32 : F32 → String
  fmt64 : F64 → String
  rfc3339 : Time → String
  loadLocation : String → Option Location
  localZone : Location

/-- Go `time.Unix(sec, 0)`: the instant, shown in the local zone. -/
def timeUnix {F32 F64 : Type} (env : Env F32 F64) (sec : Int) : Time :=
  { sec := sec, loc := env.localZone }

/-! ## Data model -/

/-- Row of table `fm_alarminfo`.  `StartsAt` and `UpdateAt` are pointers in the
source and are `none` for a NULL column. -/
structure Alerting (F64 : Type) where
  ID : Int
  FmType : Int
  RuleID : Int
  Code : String
  THigh : F64
  TLow : F64
  Unit : String
  Value : F64
  StartsAt : Option Time
  UpdateAt : Option Time
  Total : Int
  Status : Int
  CustomerID : Int
  CustomerName : String
  Extra : String

/-- Row of the rule query. -/
structure AlertingRule (F32 : Type) where
  DomainID : Int
  Domain : String
  RuleID : Int
  RuleName : String
  THigh : F32
  TLow : F32
  Unit : String
  Attention : Int
  CustomerID : Int
  Email : String
  ResponseCode : String
  DiffType : Int

/-- A `template.KV`, Go `map[string]string`: the entries in order of insertion,
each key once. -/
abbrev KV := List (String × String)

/-- Read of a map entry: the value, or the empty string for a missing key. -/
def KV.get (m : KV) (k : String) : String :=
  match m.find? (fun e => e.1 = k) with
  | some e => e.2
  | none => ""

/-- Assignment `m[k] = v`: overwrite the entry of `k`, or add it. -/
def KV.set : KV → String → String → KV
  | [], k, v => [(k, v)]
  | e :: m, k, v => if e.1 = k then (k, v) :: m else e :: KV.set m k v

/-- The keys of a map. -/
def KV.keys (m : KV) : List String := m.map Prod.fst

/-- The fields of `template.Alert` the program sets. -/
structure Alert where
  StartsAt : Time
  Labels : KV
  Annotations : KV

/-- The table `ALERTING_NAME_EN`. -/
def ALERTING_NAME_EN : KV :=
  [("1002", "HTTP Code Sum Error(1002)"),
   ("1005", "HTTP Error Code High(1005)"),
   ("1007", "HTTP Code Percentage Error(1007)"),
   ("0302", "Edge Server Bandwidth Error(0302)"),
   ("0303", "Origin Server Bandwidth D2D Error(0303)"),
   ("0401", "Origin Server Bandwidth High(0401)"),
   ("0701", "Request Hit Rate Error(0701)")]

/-- The run-time panics of the program. -/
inductive GoPanic where
  | nilDereference
  | indexOutOfRange
  deriving DecidableEq, Repr

/-- Read through a pointer: a panic on nil. -/
def deref {α : Type} (p : Option α) : Except GoPanic α :=
  match p with
  | some a => Except.ok a
  | none => Except.error GoPanic.nilDereference

/-- Read of `xs[i]`: a panic when `i` is out of range. -/
def index {α : Type} (xs : List α) (i : Nat) : Except GoPanic α :=
  match xs.get? i with
  | some a => Except.ok a
  | none => Except.error GoPanic.indexOutOfRange

/-! ## `timeIn` and `buildAlertmanagerMessage` -/

/-- Function `timeIn`: the time shown in the named location when the location
loads, else the time unchanged; the flag tells whether loading failed. -/
def timeIn {F32 F64 : Type} (env : Env F32 F64) (t : Time) (name : String) : Time × Bool :=
  match env.loadLocation name with
  | some loc => ({ t with loc := loc }, false)
  | none => (t, true)

/-- Assignment `result.Labels[k] = v`. -/
def Alert.setLabel (r : Alert) (k v : String) : Alert :=
  { r with Labels := KV.set r.Labels k v }

/-- Assignment `result.Annotations[k] = v`. -/
def Alert.annotate (r : Alert) (k v : String) : Alert :=
  { r with Annotations := KV.set r.Annotations k v }

/-- The composite literal that initialises `result` in
`buildAlertmanagerMessage`. -/
def initialResult {F32 F64 : Type} (rule : AlertingRule F32) (alert : Alerting F64)
    (startsAt : Time) : Alert :=
  { StartsAt := startsAt
    Labels :=
      [("alertname", ALERTING_NAME_EN.get alert.Code),
       ("severity", "critical"),
       ("rule_id", alert.Code),
       ("domain", rule.Domain),
       ("customer", alert.CustomerName),
       ("to_customer", "yes"),
       ("zenlayer_aiop", "yes")]
    Annotations := [("description", "")] }

/-- Function `buildAlertmanagerMessage`.  `Except.error` is a panic,
`Except.ok none` the nil result, `Except.ok (some n)` a notification. -/
def buildAlertmanagerMessage {F32 F64 : Type} (env : Env F32 F64)
    (rule : AlertingRule F32) (alert : Alerting F64) : Except GoPanic (Option Alert) := do
  let t ← deref alert.StartsAt
  let startsAt := (timeIn env t "Asia/Shanghai").1
  let result := initialResult rule alert startsAt
  let result :=
    if stringsContains rule.Email "only_cdn_devops" then result.setLabel "to_customer" "no"
    else result
  if alert.Code = "1002" then
    return some (result.annotate "description"
      ("threshold: gt " ++ env.fmt32 rule.THigh ++ rule.Unit ++ ", VALUE: "
        ++ env.fmt64 alert.Value ++ alert.Unit ++ ", http code: " ++ rule.ResponseCode))
  else if alert.Code = "1005" ∨ alert.Code = "1007" then
    let extras := stringsSplit alert.Extra ':'
    if extras.length ≠ 5 then
      return none
    else
      let e2 ← index extras 2
      let e4 ← index extras 4
      return some (result.annotate "description"
        ("threshold: gt " ++ env.fmt32 rule.THigh ++ rule.Unit ++ ", VALUE: "
          ++ env.fmt64 alert.Value ++ alert.Unit ++ ", count: " ++ e2 ++ ", detail: " ++ e4))
  else if alert.Code = "0302" then
    if rule.DiffType ≠ 1 ∧ rule.DiffType ≠ 7 then
      return none
    else
      let extras := stringsSplit alert.Extra ','
      if extras.length ≠ 2 then
        return none
      else
        let cpv1 := stringsSplit (← index extras 0) ':'
        let cpv2 := stringsSplit (← index extras 1) ':'
        if cpv1.length ≠ 2 ∨ cpv2.length ≠ 2 then
          return none
        else
          let timestamp1 := (parseInt (← index cpv1 0)).1
          let timestamp2 := (parseInt (← index cpv2 0)).1
          let t1 := timeUnix env timestamp1
          let t2 := timeUnix env timestamp2
          let m1 ← index cpv1 1
          let m2 ← index cpv2 1
          return some (result.annotate "description"
            ("threshold: (gt " ++ env.fmt32 rule.THigh ++ rule.Unit ++ " || lt -"
              ++ env.fmt32 rule.TLow ++ rule.Unit ++ "), VALUE: " ++ env.fmt64 alert.Value
              ++ alert.Unit ++ ", detail: " ++ env.rfc3339 t1 ++ " > " ++ m1 ++ "Mb/s, "
              ++ env.rfc3339 t2 ++ " > " ++ m2 ++ "Mb/s"))
  else if alert.Code = "0303" then
    let result := result.setLabel "to_customer" "yes"
    return some (result.annotate "description"
      ("threshold: gt " ++ env.fmt32 rule.THigh ++ rule.Unit ++ ", VALUE: "
        ++ env.fmt64 alert.Value ++ alert.Unit))
  else if alert.Code = "0401" then
    return some (result.annotate "description"
      ("threshold: gt " ++ env.fmt32 rule.THigh ++ rule.Unit ++ ", VALUE: "
        ++ env.fmt64 alert.Value ++ alert.Unit))
  else if alert.Code = "0701" then
    return some (result.annotate "description"
      ("threshold: lt " ++ env.fmt32 rule.TLow ++ rule.Unit ++ ", VALUE: "
        ++ env.fmt64 alert.Value ++ alert.Unit))
  else
    return some result

/-- The value of `result` after the test of the rule's `Email` (source lines
179 to 197), for a first-seen time `t`. -/
def routedResult {F32 F64 : Type} (env : Env F32 F64) (rule : AlertingRule F32)
    (alert : Alerting F64) (t : Time) : Alert :=
  if stringsContains rule.Email "only_cdn_devops" then
    (initialResult rule alert (timeIn env t "Asia/Shanghai").1).setLabel "to_customer" "no"
  else initialResult rule alert (timeIn env t "Asia/Shanghai").1

/-- The description carried by a result, if the result is a notification. -/
def descriptionOf (r : Except GoPanic (Option Alert)) : Option String :=
  match r with
  | Except.ok (some n) => some (KV.get n.Annotations "description")
  | _ => none

/-! ## The polling closure `fn` of `main` -/

/-- A Go `map[int]AlertingRule`: the entries, each key once. -/
abbrev RuleMap (F32 : Type) := List (Int × AlertingRule F32)

/-- Assignment `rulemap[k] = r`: overwrite the entry of `k`, or add it. -/
def RuleMap.insert {F32 : Type} : RuleMap F32 → Int → AlertingRule F32 → RuleMap F32
  | [], k, r => [(k, r)]
  | e :: m, k, r => if e.1 = k then (k, r) :: m else e :: RuleMap.insert m k r

/-- Read `rulemap[k]` with its presence flag. -/
def RuleMap.lookup {F32 : Type} : RuleMap F32 → Int → Option (AlertingRule F32)
  | [], _ => none
  | e :: m, k => if e.1 = k then some e.2 else RuleMap.lookup m k

/-- The loop that fills `rulemap` from `rules`. -/
def buildRuleMap {F32 : Type} (rules : List (AlertingRule F32)) : RuleMap F32 :=
  rules.foldl (fun m rule => RuleMap.insert m rule.RuleID rule) []

/-- The loop over `alerts` that fills the batch `as`: an alert without a rule is
skipped, a nil result is skipped, a notification is appended. -/
def compileBatch {F32 F64 : Type} (env : Env F32 F64) (rulemap : RuleMap F32) :
    List (Alerting F64) → List Alert → Except GoPanic (List Alert)
  | [], batch => Except.ok batch
  | a :: rest, batch =>
    match RuleMap.lookup rulemap a.RuleID with
    | none => compileBatch env rulemap rest batch
    | some rule =>
      match buildAlertmanagerMessage env rule a with
      | Except.error p => Except.error p
      | Except.ok none => compileBatch env rulemap rest batch
      | Except.ok (some result) => compileBatch env rulemap rest (batch ++ [result])

/-- What the two queries return in one cycle; `none` is the nil slice returned
after a query error. -/
structure Sources (F32 F64 : Type) where
  getAlerting : Option (List (Alerting F64))
  getAlertingRule : Option (List (AlertingRule F32))

/-- The external calls of a cycle: the two queries and the POST of a batch to the
webhook. -/
inductive Call where
  | getAlerting
  | getAlertingRule
  | post (batch : List Alert)

/-- Whether a call is a delivery to the webhook. -/
def Call.isPost : Call → Bool
  | Call.post _ => true
  | _ => false

/-- The closure `fn`, one cycle: the external calls made, in order, and whether
the cycle ended normally or in a panic. -/
def fn {F32 F64 : Type} (env : Env F32 F64) (src : Sources F32 F64) :
    List Call × Except GoPanic Unit :=
  match src.getAlerting with
  | none => ([Call.getAlerting], Except.ok ())
  | some alerts =>
    if alerts.length = 0 then ([Call.getAlerting], Except.ok ())
    else
      match src.getAlertingRule with
      | none => ([Call.getAlerting, Call.getAlertingRule], Except.ok ())
      | some rules =>
        match compileBatch env (buildRuleMap rules) alerts [] with
        | Except.error p => ([Call.getAlerting, Call.getAlertingRule], Except.error p)
        | Except.ok batch =>
          if batch.length = 0 then ([Call.getAlerting, Call.getAlertingRule], Except.ok ())
          else ([Call.getAlerting, Call.getAlertingRule, Call.post batch], Except.ok ())

/-! ## Sample values for concrete runs -/

/-- A sample rendering of `%.2f`: the amount is given in hundredths. -/
def fmtHundredths (h : Nat) : String :=
  appendInt (h / 100) 1 ++ "." ++ appendInt (h % 100) 2

/-- The location UTC. -/
def zoneUTC : Location := { name := "UTC", lookup := fun _ => 0 }

/-- The location Asia/Shanghai at its offset of today, +08:00. -/
def zoneShanghai : Location := { name := "Asia/Shanghai", lookup := fun _ => 28800 }

/-- A time zone database that holds Asia/Shanghai. -/
def sampleZones (name : String) : Option Location :=
  if name = "Asia/Shanghai" then some zoneShanghai else none

/-- A process whose local zone is UTC. -/
def envUTC : Env Nat Nat :=
  { fmt32 := fmtHundredths, fmt64 := fmtHundredths, rfc3339 := formatRFC3339,
    loadLocation := sampleZones, localZone := zoneUTC }

/-- A process whose local zone is Asia/Shanghai. -/
def envShanghai : Env Nat Nat :=
  { fmt32 := fmtHundredths, fmt64 := fmtHundredths, rfc3339 := formatRFC3339,
    loadLocation := sampleZones, localZone := zoneShanghai }

/-- A sample first-seen time, 2020-09-22T06:10:00Z. -/
def sampleTime : Time := { sec := 1600755000, loc := zoneUTC }

/-- A sample rule: thresholds 5.00 and 1.00, unit `%`, response code 500. -/
def sampleRule (email : String) (diffType : Int) : AlertingRule Nat :=
  { DomainID := 1, Domain := "cdn.example.com", RuleID := 7, RuleName := "rule", THigh := 500,
    TLow := 100, Unit := "%", Attention := 0, CustomerID := 3, Email := email,
    ResponseCode := "500", DiffType := diffType }

/-- A sample alert of rule 7: value 12.34, unit `%`. -/
def sampleAlert (code extra : String) (startsAt : Option Time) : Alerting Nat :=
  { ID := 1, FmType := 0, RuleID := 7, Code := code, THigh := 500, TLow := 100, Unit := "%",
    Value := 1234, StartsAt := startsAt, UpdateAt := none, Total := 1, Status := 1,
    CustomerID := 3, CustomerName := "acme", Extra := extra }

/-- Two sample rules with the same identifier 7 and different domains. -/
def sampleRules : List (AlertingRule Nat) :=
  [{ sampleRule "" 0 with Domain := "a.example.com" },
   { sampleRule "" 0 with Domain := "b.example.com" }]

/-- Two sample alerts: the first of the unknown rule 9, the second a "1002"
alert of rule 7. -/
def sampleAlerts : List (Alerting Nat) :=
  [{ sampleAlert "1002" "" (some sampleTime) with RuleID := 9 },
   sampleAlert "1002" "" (some sampleTime)]

/-- Three sample alerts of rule 7, the second without a first-seen time. -/
def panicAlerts : List (Alerting Nat) :=
  [sampleAlert "1002" "" (some sampleTime),
   sampleAlert "1002" "" none,
   sampleAlert "0401" "" (some sampleTime)]

/-- The notification of the second sample alert under the second sample rule. -/
def sampleNotification : Alert :=
  { StartsAt := { sec := 1600755000, loc := zoneShanghai }
    Labels :=
      [("alertname", "HTTP Code Sum Error(1002)"),
       ("severity", "critical"),
       ("rule_id", "1002"),
       ("domain", "b.example.com"),
       ("customer", "acme"),
       ("to_customer", "yes"),
       ("zenlayer_aiop", "yes")]
    Annotations := [("description", "threshold: gt 5.00%, VALUE: 12.34%, http code: 500")] }

/-- The name of the location of `StartsAt` in a result, if the result is a
notification. -/
def startsAtZoneOf (r : Except GoPanic (Option Alert)) : Option String :=
  match r with
  | Except.ok (some n) => some n.StartsAt.loc.name
  | _ => none

/-! ## Basic facts -/

theorem index_cons_zero {α : Type} (a : α) (xs : List α) : index (a :: xs) 0 = Except.ok a := rfl

theorem index_cons_succ {α : Type} (a : α) (xs : List α) (i : Nat) :
    index (a :: xs) (i + 1) = index xs i := rfl

theorem length_five {α : Type} (xs : List α) (h : xs.length = 5) :
    ∃ a b c d e, xs = [a, b, c, d, e] := by
  match xs, h with
  | [a, b, c, d, e], _ => exact ⟨a, b, c, d, e, rfl⟩

theorem length_two {α : Type} (xs : List α) (h : xs.length = 2) : ∃ a b, xs = [a, b] := by
  match xs, h with
  | [a, b], _ => exact ⟨a, b, rfl⟩

theorem splitChars_ne_nil (sep : Char) (s : List Char) : splitChars sep s ≠ [] := by
  cases s with
  | nil => simp [splitChars]
  | cons c cs =>
    unfold splitChars
    split_ifs
    · simp
    · split <;> simp

/-- The number of fields is one more than the number of separators. -/
theorem splitChars_length (sep : Char) (s : List Char) :
    (splitChars sep s).length = s.count sep + 1 := by
  induction s with
  | nil => simp [splitChars]
  | cons c cs ih =>
    unfold splitChars
    by_cases h : c = sep
    · subst h
      simp [ih]
    · have h2 : ¬ (c == sep) = true := by simpa using h
      simp only [h, if_false, List.count_cons, h2]
      split
      · rename_i heq
        exact absurd heq (splitChars_ne_nil sep cs)
      · rename_i f fs heq
        rw [heq] at ih
        simpa using ih

/-- No field holds the separator. -/
theorem splitChars_no_sep (sep : Char) (s : List Char) :
    ∀ f ∈ splitChars sep s, sep ∉ f := by
  induction s with
  | nil => simp [splitChars]
  | cons c cs ih =>
    unfold splitChars
    by_cases h : c = sep
    · simp only [h, if_true]
      intro f hf
      rcases List.mem_cons.mp hf with rfl | hf
      · simp
      · exact ih f hf
    · simp only [h, if_false]
      split
      · rename_i heq
        exact absurd heq (splitChars_ne_nil sep cs)
      · rename_i f0 fs heq
        rw [heq] at ih
        intro f hf
        rcases List.mem_cons.mp hf with rfl | hf
        · intro hmem
          rcases List.mem_cons.mp hmem with hc | hmem
          · exact h hc.symm
          · exact ih f0 (List.mem_cons_self _ _) hmem
        · exact ih f (List.mem_cons_of_mem _ hf)

/-- The fields joined by the separator give the list back. -/
theorem splitChars_join (sep : Char) (s : List Char) :
    List.intercalate [sep] (splitChars sep s) = s := by
  induction s with
  | nil => simp [splitChars, List.intercalate]
  | cons c cs ih =>
    unfold splitChars
    by_cases h : c = sep
    · simp only [h, if_true]
      cases hr : splitChars sep cs with
      | nil => exact absurd hr (splitChars_ne_nil sep cs)
      | cons f fs =>
        rw [hr] at ih
        simp only [List.intercalate, List.intersperse, List.flatten] at ih ⊢
        simp [ih]
    · simp only [h, if_false]
      split
      · rename_i heq
        exact absurd heq (splitChars_ne_nil sep cs)
      · rename_i f fs heq
        rw [heq] at ih
        cases fs with
        | nil =>
          simp only [List.intercalate, List.intersperse, List.flatten] at ih ⊢
          simpa using ih
        | cons g gs =>
          simp only [List.intercalate, List.intersperse, List.flatten] at ih ⊢
          simpa using ih

theorem ok_bind {ε α β : Type} (a : α) (f : α → Except ε β) :
    (Except.ok a >>= f) = f a := rfl

theorem error_bind {ε α β : Type} (e : ε) (f : α → Except ε β) :
    ((Except.error e : Except ε α) >>= f) = Except.error e := rfl

section Build
variable {F32 F64 : Type} (env : Env F32 F64) (rule : AlertingRule F32) (alert : Alerting F64)

theorem build_nil (hs : alert.StartsAt = none) :
    buildAlertmanagerMessage env rule alert = Except.error GoPanic.nilDereference := by
  simp [buildAlertmanagerMessage, deref, hs, error_bind]

theorem build_1002 (t : Time) (hs : alert.StartsAt = some t) (hc : alert.Code = "1002") :
    buildAlertmanagerMessage env rule alert =
      Except.ok (some ((routedResult env rule alert t).annotate "description"
        ("threshold: gt " ++ env.fmt32 rule.THigh ++ rule.Unit ++ ", VALUE: "
          ++ env.fmt64 alert.Value ++ alert.Unit ++ ", http code: " ++ rule.ResponseCode))) := by
  simp [buildAlertmanagerMessage, deref, hs, hc, routedResult, ok_bind]

theorem build_count_reject (t : Time) (hs : alert.StartsAt = some t)
    (hc : alert.Code = "1005" ∨ alert.Code = "1007")
    (hn : (stringsSplit alert.Extra ':').length ≠ 5) :
    buildAlertmanagerMessage env rule alert = Except.ok none := by
  rcases hc with hc | hc <;>
    simp [buildAlertmanagerMessage, deref, hs, hc, hn, ok_bind]

theorem build_count (t : Time) (hs : alert.StartsAt = some t)
    (hc : alert.Code = "1005" ∨ alert.Code = "1007") (f0 f1 f2 f3 f4 : String)
    (hx : stringsSplit alert.Extra ':' = [f0, f1, f2, f3, f4]) :
    buildAlertmanagerMessage env rule alert =
      Except.ok (some ((routedResult env rule alert t).annotate "description"
        ("threshold: gt " ++ env.fmt32 rule.THigh ++ rule.Unit ++ ", VALUE: "
          ++ env.fmt64 alert.Value ++ alert.Unit ++ ", count: " ++ f2 ++ ", detail: " ++ f4))) := by
  rcases hc with hc | hc <;>
    simp [buildAlertmanagerMessage, deref, hs, hc, hx, routedResult, index_cons_zero,
      index_cons_succ, ok_bind]

theorem build_0302_difftype (t : Time) (hs : alert.StartsAt = some t) (hc : alert.Code = "0302")
    (hd : rule.DiffType ≠ 1 ∧ rule.DiffType ≠ 7) :
    buildAlertmanagerMessage env rule alert = Except.ok none := by
  simp [buildAlertmanagerMessage, deref, hs, hc, hd, ok_bind]

theorem build_0302_outer (t : Time) (hs : alert.StartsAt = some t) (hc : alert.Code = "0302")
    (hn : (stringsSplit alert.Extra ',').length ≠ 2) :
    buildAlertmanagerMessage env rule alert = Except.ok none := by
  by_cases hd : rule.DiffType ≠ 1 ∧ rule.DiffType ≠ 7
  · exact build_0302_difftype env rule alert t hs hc hd
  · simp [buildAlertmanagerMessage, deref, hs, hc, hd, hn, ok_bind]

theorem build_0302_inner (t : Time) (hs : alert.StartsAt = some t) (hc : alert.Code = "0302")
    (s1 s2 : String) (hx : stringsSplit alert.Extra ',' = [s1, s2])
    (hn : (stringsSplit s1 ':').length ≠ 2 ∨ (stringsSplit s2 ':').length ≠ 2) :
    buildAlertmanagerMessage env rule alert = Except.ok none := by
  by_cases hd : rule.DiffType ≠ 1 ∧ rule.DiffType ≠ 7
  · exact build_0302_difftype env rule alert t hs hc hd
  · simp [buildAlertmanagerMessage, deref, hs, hc, hd, hx, hn, index_cons_zero,
      index_cons_succ, ok_bind]

theorem build_0302 (t : Time) (hs : alert.StartsAt = some t) (hc : alert.Code = "0302")
    (hd : rule.DiffType = 1 ∨ rule.DiffType = 7)
    (s1 s2 a b c d : String) (hx : stringsSplit alert.Extra ',' = [s1, s2])
    (h1 : stringsSplit s1 ':' = [a, b]) (h2 : stringsSplit s2 ':' = [c, d]) :
    buildAlertmanagerMessage env rule alert =
      Except.ok (some ((routedResult env rule alert t).annotate "description"
        ("threshold: (gt " ++ env.fmt32 rule.THigh ++ rule.Unit ++ " || lt -"
          ++ env.fmt32 rule.TLow ++ rule.Unit ++ "), VALUE: " ++ env.fmt64 alert.Value
          ++ alert.Unit ++ ", detail: " ++ env.rfc3339 (timeUnix env (parseInt a).1) ++ " > "
          ++ b ++ "Mb/s, " ++ env.rfc3339 (timeUnix env (parseInt c).1) ++ " > " ++ d
          ++ "Mb/s"))) := by
  have hd2 : ¬ (rule.DiffType ≠ 1 ∧ rule.DiffType ≠ 7) := by
    rcases hd with hd | hd <;> simp [hd]
  simp [buildAlertmanagerMessage, deref, hs, hc, hd2, hx, h1, h2, routedResult,
    index_cons_zero, index_cons_succ, ok_bind]

theorem build_0303 (t : Time) (hs : alert.StartsAt = some t) (hc : alert.Code = "0303") :
    buildAlertmanagerMessage env rule alert =
      Except.ok (some (((routedResult env rule alert t).setLabel "to_customer" "yes").annotate
        "description" ("threshold: gt " ++ env.fmt32 rule.THigh ++ rule.Unit ++ ", VALUE: "
          ++ env.fmt64 alert.Value ++ alert.Unit))) := by
  simp [buildAlertmanagerMessage, deref, hs, hc, routedResult, ok_bind]

theorem build_0401 (t : Time) (hs : alert.StartsAt = some t) (hc : alert.Code = "0401") :
    buildAlertmanagerMessage env rule alert =
      Except.ok (some ((routedResult env rule alert t).annotate
        "description" ("threshold: gt " ++ env.fmt32 rule.THigh ++ rule.Unit ++ ", VALUE: "
          ++ env.fmt64 alert.Value ++ alert.Unit))) := by
  simp [buildAlertmanagerMessage, deref, hs, hc, routedResult, ok_bind]

theorem build_0701 (t : Time) (hs : alert.StartsAt = some t) (hc : alert.Code = "0701") :
    buildAlertmanagerMessage env rule alert =
      Except.ok (some ((routedResult env rule alert t).annotate
        "description" ("threshold: lt " ++ env.fmt32 rule.TLow ++ rule.Unit ++ ", VALUE: "
          ++ env.fmt64 alert.Value ++ alert.Unit))) := by
  simp [buildAlertmanagerMessage, deref, hs, hc, routedResult, ok_bind]

theorem build_other (t : Time) (hs : alert.StartsAt = some t)
    (h1 : alert.Code ≠ "1002") (h2 : alert.Code ≠ "1005") (h3 : alert.Code ≠ "1007")
    (h4 : alert.Code ≠ "0302") (h5 : alert.Code ≠ "0303") (h6 : alert.Code ≠ "0401")
    (h7 : alert.Code ≠ "0701") :
    buildAlertmanagerMessage env rule alert = Except.ok (some (routedResult env rule alert t)) := by
  simp [buildAlertmanagerMessage, deref, hs, h1, h2, h3, h4, h5, h6, h7, routedResult, ok_bind]

theorem build_0302_reject (t : Time) (hs : alert.StartsAt = some t) (hc : alert.Code = "0302")
    (hno : ¬ ((rule.DiffType = 1 ∨ rule.DiffType = 7)
      ∧ ∃ s1 s2 : String, stringsSplit alert.Extra ',' = [s1, s2]
          ∧ (stringsSplit s1 ':').length = 2 ∧ (stringsSplit s2 ':').length = 2)) :
    buildAlertmanagerMessage env rule alert = Except.ok none := by
  by_cases hd : rule.DiffType ≠ 1 ∧ rule.DiffType ≠ 7
  · exact build_0302_difftype env rule alert t hs hc hd
  · have hd2 : rule.DiffType = 1 ∨ rule.DiffType = 7 := by
      by_cases h1 : rule.DiffType = 1
      · exact Or.inl h1
      · exact Or.inr (by_contra fun h7 => hd ⟨h1, h7⟩)
    by_cases hn : (stringsSplit alert.Extra ',').length = 2
    · obtain ⟨s1, s2, hx⟩ := length_two _ hn
      apply build_0302_inner env rule alert t hs hc s1 s2 hx
      by_contra hcon
      push_neg at hcon
      exact hno ⟨hd2, s1, s2, hx, hcon.1, hcon.2⟩
    · exact build_0302_outer env rule alert t hs hc hn

/-- With a first-seen time present the function does not panic: every index
read is in range. -/
theorem build_present_ok (t : Time) (hs : alert.StartsAt = some t) :
    ∃ r, buildAlertmanagerMessage env rule alert = Except.ok r := by
  by_cases h1 : alert.Code = "1002"
  · exact ⟨_, build_1002 env rule alert t hs h1⟩
  by_cases h57 : alert.Code = "1005" ∨ alert.Code = "1007"
  · by_cases h5 : (stringsSplit alert.Extra ':').length = 5
    · obtain ⟨f0, f1, f2, f3, f4, hx⟩ := length_five _ h5
      exact ⟨_, build_count env rule alert t hs h57 f0 f1 f2 f3 f4 hx⟩
    · exact ⟨_, build_count_reject env rule alert t hs h57 h5⟩
  by_cases h3 : alert.Code = "0302"
  · by_cases hok : (rule.DiffType = 1 ∨ rule.DiffType = 7)
        ∧ ∃ s1 s2 : String, stringsSplit alert.Extra ',' = [s1, s2]
            ∧ (stringsSplit s1 ':').length = 2 ∧ (stringsSplit s2 ':').length = 2
    · obtain ⟨hd, s1, s2, hx, l1, l2⟩ := hok
      obtain ⟨a, b, hab⟩ := length_two _ l1
      obtain ⟨c, d, hcd⟩ := length_two _ l2
      exact ⟨_, build_0302 env rule alert t hs h3 hd s1 s2 a b c d hx hab hcd⟩
    · exact ⟨_, build_0302_reject env rule alert t hs h3 hok⟩
  by_cases h33 : alert.Code = "0303"
  · exact ⟨_, build_0303 env rule alert t hs h33⟩
  by_cases h4 : alert.Code = "0401"
  · exact ⟨_, build_0401 env rule alert t hs h4⟩
  by_cases h7 : alert.Code = "0701"
  · exact ⟨_, build_0701 env rule alert t hs h7⟩
  push_neg at h57
  exact ⟨_, build_other env rule alert t hs h1 h57.1 h57.2 h3 h33 h4 h7⟩

/-- Every notification is the value of `result` after the `Email` test with its
description set, and for code "0303" with the label `to_customer` set back to
"yes" first; for a code outside the table it is that value unchanged. -/
theorem build_some_shape (n : Alert)
    (h : buildAlertmanagerMessage env rule alert = Except.ok (some n)) :
    ∃ t, alert.StartsAt = some t ∧
      ((alert.Code ≠ "0303" ∧ ∃ text,
          n = (routedResult env rule alert t).annotate "description" text)
        ∨ (alert.Code = "0303" ∧ ∃ text,
          n = ((routedResult env rule alert t).setLabel "to_customer" "yes").annotate
            "description" text)
        ∨ (alert.Code ≠ "0303" ∧ n = routedResult env rule alert t)) := by
  cases hs : alert.StartsAt with
  | none => rw [build_nil env rule alert hs] at h; cases h
  | some t =>
    refine ⟨t, rfl, ?_⟩
    by_cases h1 : alert.Code = "1002"
    · rw [build_1002 env rule alert t hs h1] at h
      injection h with h; injection h with h
      exact Or.inl ⟨by simp [h1], _, h.symm⟩
    by_cases h57 : alert.Code = "1005" ∨ alert.Code = "1007"
    · by_cases h5 : (stringsSplit alert.Extra ':').length = 5
      · obtain ⟨f0, f1, f2, f3, f4, hx⟩ := length_five _ h5
        rw [build_count env rule alert t hs h57 f0 f1 f2 f3 f4 hx] at h
        injection h with h; injection h with h
        refine Or.inl ⟨?_, _, h.symm⟩
        rcases h57 with h57 | h57 <;> simp [h57]
      · rw [build_count_reject env rule alert t hs h57 h5] at h
        cases h
    by_cases h3 : alert.Code = "0302"
    · by_cases hok : (rule.DiffType = 1 ∨ rule.DiffType = 7)
          ∧ ∃ s1 s2 : String, stringsSplit alert.Extra ',' = [s1, s2]
              ∧ (stringsSplit s1 ':').length = 2 ∧ (stringsSplit s2 ':').length = 2
      · obtain ⟨hd, s1, s2, hx, l1, l2⟩ := hok
        obtain ⟨a, b, hab⟩ := length_two _ l1
        obtain ⟨c, d, hcd⟩ := length_two _ l2
        rw [build_0302 env rule alert t hs h3 hd s1 s2 a b c d hx hab hcd] at h
        injection h with h; injection h with h
        exact Or.inl ⟨by simp [h3], _, h.symm⟩
      · rw [build_0302_reject env rule alert t hs h3 hok] at h
        cases h
    by_cases h33 : alert.Code = "0303"
    · rw [build_0303 env rule alert t hs h33] at h
      injection h with h; injection h with h
      exact Or.inr (Or.inl ⟨h33, _, h.symm⟩)
    by_cases h4 : alert.Code = "0401"
    · rw [build_0401 env rule alert t hs h4] at h
      injection h with h; injection h with h
      exact Or.inl ⟨h33, _, h.symm⟩
    by_cases h7 : alert.Code = "0701"
    · rw [build_0701 env rule alert t hs h7] at h
      injection h with h; injection h with h
      exact Or.inl ⟨h33, _, h.symm⟩
    push_neg at h57
    rw [build_other env rule alert t hs h1 h57.1 h57.2 h3 h33 h4 h7] at h
    injection h with h; injection h with h
    exact Or.inr (Or.inr ⟨h33, h.symm⟩)

/-- The labels of every notification. -/
theorem build_some_labels (n : Alert)
    (h : buildAlertmanagerMessage env rule alert = Except.ok (some n)) :
    n.Labels =
      [("alertname", KV.get ALERTING_NAME_EN alert.Code),
       ("severity", "critical"),
       ("rule_id", alert.Code),
       ("domain", rule.Domain),
       ("customer", alert.CustomerName),
       ("to_customer",
          if stringsContains rule.Email "only_cdn_devops" = true ∧ alert.Code ≠ "0303" then "no"
          else "yes"),
       ("zenlayer_aiop", "yes")]
    ∧ KV.keys n.Annotations = ["description"] := by
  obtain ⟨t, -, hshape⟩ := build_some_shape env rule alert n h
  rcases hshape with ⟨hc, text, rfl⟩ | ⟨hc, text, rfl⟩ | ⟨hc, rfl⟩ <;>
    by_cases he : stringsContains rule.Email "only_cdn_devops" = true <;>
    simp [routedResult, initialResult, Alert.annotate, Alert.setLabel, KV.set, KV.keys, he, hc]

theorem KV_get_set (m : KV) (k v : String) : KV.get (KV.set m k v) k = v := by
  induction m with
  | nil => simp [KV.set, KV.get, List.find?]
  | cons e m ih =>
    by_cases h : e.1 = k
    · simp [KV.set, KV.get, List.find?, h]
    · simpa [KV.set, KV.get, List.find?, h] using ih

theorem descriptionOf_set (r : Alert) (text : String) :
    descriptionOf (Except.ok (some (r.annotate "description" text))) = some text := by
  simp [descriptionOf, Alert.annotate, KV_get_set]

theorem parseInt_syntax_value (s : String) (h : (parseInt s).2 = some NumError.ErrSyntax) :
    (parseInt s).1 = 0 := by
  unfold parseInt at h ⊢
  cases hd : s.data with
  | nil => simp
  | cons c cs =>
    simp only [hd] at h ⊢
    rcases hp : parseUint (if c = '+' ∨ c = '-' then cs else c :: cs) with ⟨un, e⟩
    simp only [hp] at h ⊢
    rcases e with _ | _ | _
    · by_cases hneg : c = '-' <;> simp [hneg] at h <;> split_ifs at h <;> simp at h
    · rfl
    · by_cases hneg : c = '-' <;> simp [hneg] at h <;> split_ifs at h <;> simp at h

theorem parseInt_range_value (s : String) (h : (parseInt s).2 = some NumError.ErrRange) :
    (parseInt s).1 = if s.data.head? = some '-' then -2 ^ 63 else 2 ^ 63 - 1 := by
  unfold parseInt at h ⊢
  cases hd : s.data with
  | nil => simp [hd] at h
  | cons c cs =>
    simp only [hd] at h ⊢
    rcases hp : parseUint (if c = '+' ∨ c = '-' then cs else c :: cs) with ⟨un, e⟩
    simp only [hp] at h ⊢
    rcases e with _ | _ | _
    · by_cases hneg : c = '-' <;> simp [hneg] at h ⊢ <;> split_ifs at h ⊢ <;> simp at h ⊢
    · simp at h
    · by_cases hneg : c = '-' <;> simp [hneg] at h ⊢ <;> split_ifs at h ⊢ <;> simp at h ⊢

/-! ### The decoder on decimal numerals -/

theorem decimalFrom_ge (ds : List Char) (n : Nat) : n ≤ decimalFrom n ds := by
  induction ds generalizing n with
  | nil => simp [decimalFrom]
  | cons c cs ih =>
    have h := ih (n * 10 + (c.toNat - '0'.toNat))
    simp only [decimalFrom, List.foldl_cons] at h ⊢
    omega

theorem maxUint64_eq : maxUint64 = 18446744073709551615 := by
  norm_num [maxUint64]

/-- On decimal digits the loop returns the number written, or `maxUint64` with
a range error when that number does not fit 64 bits. -/
theorem parseUintLoop_digits (ds : List Char) (n : Nat)
    (hd : ∀ c ∈ ds, '0' ≤ c ∧ c ≤ '9') (hn : n ≤ maxUint64) :
    parseUintLoop ds n =
      if decimalFrom n ds ≤ maxUint64 then (decimalFrom n ds, none)
      else (maxUint64, some NumError.ErrRange) := by
  induction ds generalizing n with
  | nil => simp [parseUintLoop, decimalFrom, hn]
  | cons c cs ih =>
    have hc := hd c (List.mem_cons_self _ _)
    have hcs : ∀ c' ∈ cs, '0' ≤ c' ∧ c' ≤ '9' := fun c' h' => hd c' (List.mem_cons_of_mem _ h')
    have h57 : c.toNat ≤ 57 := hc.2
    have h48 : '0'.toNat = 48 := rfl
    have hge := decimalFrom_ge cs (n * 10 + (c.toNat - '0'.toNat))
    have hstep : decimalFrom n (c :: cs) = decimalFrom (n * 10 + (c.toNat - '0'.toNat)) cs := rfl
    rw [maxUint64_eq] at hn
    unfold parseUintLoop
    simp only [hc, and_self, if_true]
    rw [hstep]
    by_cases hcut : n ≥ maxUint64 / 10 + 1
    · have hbig : ¬ decimalFrom (n * 10 + (c.toNat - '0'.toNat)) cs ≤ maxUint64 := by
        rw [maxUint64_eq] at hcut ⊢
        omega
      simp only [hcut, if_true, hbig, if_false]
    · simp only [hcut, if_false]
      rw [maxUint64_eq] at hcut
      by_cases hov : n * 10 + (c.toNat - '0'.toNat) ≤ maxUint64
      · have hmod : (n * 10 + (c.toNat - '0'.toNat)) % 2 ^ 64 = n * 10 + (c.toNat - '0'.toNat) := by
          apply Nat.mod_eq_of_lt
          rw [maxUint64_eq] at hov
          omega
        have hno : ¬ (n * 10 + (c.toNat - '0'.toNat) < n * 10
            ∨ n * 10 + (c.toNat - '0'.toNat) > maxUint64) := by
          omega
        simp only [hmod, hno, if_false]
        exact ih _ hcs hov
      · have hbig : ¬ decimalFrom (n * 10 + (c.toNat - '0'.toNat)) cs ≤ maxUint64 := by
          omega
        have hwrap : (n * 10 + (c.toNat - '0'.toNat)) % 2 ^ 64 < n * 10 := by
          rw [maxUint64_eq] at hov
          omega
        simp only [hwrap, true_or, if_true, hbig, if_false]

/-- On a numeral, an optional sign before one or more decimal digits, the
decoder returns the number written when it lies in the 64-bit range, and
otherwise the nearest bound of the range with a range error. -/
theorem parseInt_numeral (ds : List Char) (hne : ds ≠ [])
    (hd : ∀ c ∈ ds, '0' ≤ c ∧ c ≤ '9') :
    parseInt (String.mk ds) =
        (if decimalFrom 0 ds < 2 ^ 63 then ((decimalFrom 0 ds : Int), none)
         else (2 ^ 63 - 1, some NumError.ErrRange))
    ∧ parseInt (String.mk ('+' :: ds)) =
        (if decimalFrom 0 ds < 2 ^ 63 then ((decimalFrom 0 ds : Int), none)
         else (2 ^ 63 - 1, some NumError.ErrRange))
    ∧ parseInt (String.mk ('-' :: ds)) =
        (if decimalFrom 0 ds ≤ 2 ^ 63 then (-(decimalFrom 0 ds : Int), none)
         else (-2 ^ 63, some NumError.ErrRange)) := by
  have hloop := parseUintLoop_digits ds 0 hd (Nat.zero_le _)
  have hu : parseUint ds = if decimalFrom 0 ds ≤ maxUint64 then (decimalFrom 0 ds, none)
      else (maxUint64, some NumError.ErrRange) := by
    cases ds with
    | nil => exact absurd rfl hne
    | cons c cs => exact hloop
  have hsigned : ∀ (neg : Bool),
      (match (if decimalFrom 0 ds ≤ maxUint64 then (decimalFrom 0 ds, (none : Option NumError))
          else (maxUint64, some NumError.ErrRange)) with
        | (_, some NumError.ErrSyntax) => ((0 : Int), some NumError.ErrSyntax)
        | (un, _) =>
          if !neg && un ≥ 2 ^ 63 then ((2 : Int) ^ 63 - 1, some NumError.ErrRange)
          else if neg && un > 2 ^ 63 then (-(2 : Int) ^ 63, some NumError.ErrRange)
          else (if neg then -(un : Int) else (un : Int), none))
      = if neg then
          (if decimalFrom 0 ds ≤ 2 ^ 63 then (-(decimalFrom 0 ds : Int), none)
           else (-2 ^ 63, some NumError.ErrRange))
        else
          (if decimalFrom 0 ds < 2 ^ 63 then ((decimalFrom 0 ds : Int), none)
           else (2 ^ 63 - 1, some NumError.ErrRange)) := by
    intro neg
    by_cases hfit : decimalFrom 0 ds ≤ maxUint64
    · simp only [hfit, if_true]
      cases neg <;> simp <;> split_ifs <;> first | rfl | (exfalso; omega)
    · simp only [hfit, if_false]
      rw [maxUint64_eq] at hfit
      cases neg <;> simp [maxUint64_eq] <;> split_ifs <;> first | rfl | (exfalso; omega)
  obtain ⟨c, cs, rfl⟩ := List.exists_cons_of_ne_nil hne
  have hc := hd c (List.mem_cons_self _ _)
  have h48 : 48 ≤ c.toNat := hc.1
  have hplus : c ≠ '+' := by
    rintro rfl
    exact absurd h48 (by decide)
  have hminus : c ≠ '-' := by
    rintro rfl
    exact absurd h48 (by decide)
  refine ⟨?_, ?_, ?_⟩
  · have := hsigned false
    simp only [parseInt, hplus, hminus, or_self, if_false, hu, decide_False]
    simpa using this
  · have := hsigned false
    simp only [parseInt, true_or, if_true, hu]
    simpa using this
  · have := hsigned true
    simp only [parseInt, or_true, if_true, hu, decide_True]
    simpa using this

/-- The loop on decimal digits followed by a character that is not a digit: a
syntax error with value 0 when the digits read fit 64 bits, and else the range
error raised before the character is reached. -/
theorem parseUintLoop_nondigit (ds : List Char) (y : Char) (rest : List Char) (n : Nat)
    (hd : ∀ c ∈ ds, '0' ≤ c ∧ c ≤ '9') (hy : ¬ ('0' ≤ y ∧ y ≤ '9')) (hn : n ≤ maxUint64) :
    parseUintLoop (ds ++ y :: rest) n =
      if decimalFrom n ds ≤ maxUint64 then (0, some NumError.ErrSyntax)
      else (maxUint64, some NumError.ErrRange) := by
  induction ds generalizing n with
  | nil =>
    have h0 : decimalFrom n [] = n := rfl
    simp only [List.nil_append, h0, hn, if_true]
    unfold parseUintLoop
    simp only [hy, if_false]
  | cons c cs ih =>
    have hc := hd c (List.mem_cons_self _ _)
    have hcs : ∀ c' ∈ cs, '0' ≤ c' ∧ c' ≤ '9' := fun c' h' => hd c' (List.mem_cons_of_mem _ h')
    have h57 : c.toNat ≤ 57 := hc.2
    have h48 : '0'.toNat = 48 := rfl
    have hge := decimalFrom_ge cs (n * 10 + (c.toNat - '0'.toNat))
    have hstep : decimalFrom n (c :: cs) = decimalFrom (n * 10 + (c.toNat - '0'.toNat)) cs := rfl
    rw [maxUint64_eq] at hn
    rw [List.cons_append]
    unfold parseUintLoop
    simp only [hc, and_self, if_true]
    rw [hstep]
    by_cases hcut : n ≥ maxUint64 / 10 + 1
    · have hbig : ¬ decimalFrom (n * 10 + (c.toNat - '0'.toNat)) cs ≤ maxUint64 := by
        rw [maxUint64_eq] at hcut ⊢
        omega
      simp only [hcut, if_true, hbig, if_false]
    · simp only [hcut, if_false]
      rw [maxUint64_eq] at hcut
      by_cases hov : n * 10 + (c.toNat - '0'.toNat) ≤ maxUint64
      · have hmod : (n * 10 + (c.toNat - '0'.toNat)) % 2 ^ 64 = n * 10 + (c.toNat - '0'.toNat) := by
          apply Nat.mod_eq_of_lt
          rw [maxUint64_eq] at hov
          omega
        have hno : ¬ (n * 10 + (c.toNat - '0'.toNat) < n * 10
            ∨ n * 10 + (c.toNat - '0'.toNat) > maxUint64) := by
          omega
        simp only [hmod, hno, if_false]
        exact ih _ hcs hov
      · have hbig : ¬ decimalFrom (n * 10 + (c.toNat - '0'.toNat)) cs ≤ maxUint64 := by
          omega
        have hwrap : (n * 10 + (c.toNat - '0'.toNat)) % 2 ^ 64 < n * 10 := by
          rw [maxUint64_eq] at hov
          omega
        simp only [hwrap, true_or, if_true, hbig, if_false]

/-- What the decoder returns for a field that fails to decode: 0 on a syntax
error, as for the empty field; on a range error the bound of the 64-bit range
on the side of the field's sign, as for every numeral outside the range. -/
theorem parseInt_failure (x : String) :
    ((parseInt x).2 = some NumError.ErrSyntax → (parseInt x).1 = 0)
    ∧ ((parseInt x).2 = some NumError.ErrRange →
        (parseInt x).1 = if x.data.head? = some '-' then -2 ^ 63 else 2 ^ 63 - 1)
    ∧ (x = "" → parseInt x = (0, some NumError.ErrSyntax))
    ∧ (∀ ds : List Char, ds ≠ [] → (∀ ch ∈ ds, '0' ≤ ch ∧ ch ≤ '9') →
        ((x.data = ds ∨ x.data = '+' :: ds) → 2 ^ 63 ≤ decimalFrom 0 ds →
          parseInt x = (2 ^ 63 - 1, some NumError.ErrRange))
        ∧ (x.data = '-' :: ds → 2 ^ 63 < decimalFrom 0 ds →
          parseInt x = (-2 ^ 63, some NumError.ErrRange))) := by
  refine ⟨parseInt_syntax_value x, parseInt_range_value x, ?_, ?_⟩
  · rintro rfl
    rfl
  · intro ds hne hd
    obtain ⟨h1, h2, h3⟩ := parseInt_numeral ds hne hd
    obtain ⟨xs⟩ := x
    refine ⟨?_, ?_⟩
    · rintro (hx | hx) hbig
      · simp only at hx
        subst hx
        rw [h1, if_neg (by omega)]
      · simp only at hx
        subst hx
        rw [h2, if_neg (by omega)]
    · intro hx hbig
      simp only at hx
      subst hx
      rw [h3, if_neg (by omega)]

/-! ## The claims -/

/-- C1: for a present first-seen time and code "1005" or "1007", a notification
is returned exactly when `Extra` splits on ":" into 5 fields and nil otherwise;
the description of the notification is the threshold text followed by fields 2
and 4 as they stand. -/
theorem C1_count_codes (t : Time) (hs : alert.StartsAt = some t)
    (hc : alert.Code = "1005" ∨ alert.Code = "1007") :
    ((∃ n, buildAlertmanagerMessage env rule alert = Except.ok (some n))
        ↔ (stringsSplit alert.Extra ':').length = 5)
    ∧ ((stringsSplit alert.Extra ':').length ≠ 5 →
        buildAlertmanagerMessage env rule alert = Except.ok none)
    ∧ (∀ f0 f1 f2 f3 f4 : String, stringsSplit alert.Extra ':' = [f0, f1, f2, f3, f4] →
        descriptionOf (buildAlertmanagerMessage env rule alert) =
          some ("threshold: gt " ++ env.fmt32 rule.THigh ++ rule.Unit ++ ", VALUE: "
            ++ env.fmt64 alert.Value ++ alert.Unit ++ ", count: " ++ f2 ++ ", detail: " ++ f4)) := by
  refine ⟨⟨?_, ?_⟩, build_count_reject env rule alert t hs hc, ?_⟩
  · rintro ⟨n, hn⟩
    by_contra h5
    rw [build_count_reject env rule alert t hs hc h5] at hn
    cases hn
  · intro h5
    obtain ⟨f0, f1, f2, f3, f4, hx⟩ := length_five _ h5
    exact ⟨_, build_count env rule alert t hs hc f0 f1 f2 f3 f4 hx⟩
  · intro f0 f1 f2 f3 f4 hx
    rw [build_count env rule alert t hs hc f0 f1 f2 f3 f4 hx, descriptionOf_set]

/-- C2: for a present first-seen time and code "0302", the result is never a
panic; a notification is returned exactly when the rule's `DiffType` is 1 or 7
and `Extra` splits on "," into 2 segments that each split on ":" into 2 fields,
and nil otherwise; with another `DiffType` the result is nil whatever `Extra`
is. -/
theorem C2_bandwidth_arity (t : Time) (hs : alert.StartsAt = some t)
    (hc : alert.Code = "0302") :
    ((∃ n, buildAlertmanagerMessage env rule alert = Except.ok (some n))
        ↔ ((rule.DiffType = 1 ∨ rule.DiffType = 7)
            ∧ ∃ s1 s2 : String, stringsSplit alert.Extra ',' = [s1, s2]
                ∧ (stringsSplit s1 ':').length = 2 ∧ (stringsSplit s2 ':').length = 2))
    ∧ (¬ ((rule.DiffType = 1 ∨ rule.DiffType = 7)
            ∧ ∃ s1 s2 : String, stringsSplit alert.Extra ',' = [s1, s2]
                ∧ (stringsSplit s1 ':').length = 2 ∧ (stringsSplit s2 ':').length = 2) →
        buildAlertmanagerMessage env rule alert = Except.ok none)
    ∧ (rule.DiffType ≠ 1 ∧ rule.DiffType ≠ 7 →
        ∀ extra : String,
          buildAlertmanagerMessage env rule { alert with Extra := extra } = Except.ok none) := by
  have hrej := build_0302_reject env rule alert t hs hc
  refine ⟨⟨?_, ?_⟩, hrej, ?_⟩
  · rintro ⟨n, hn⟩
    by_contra hno
    rw [hrej hno] at hn
    cases hn
  · rintro ⟨hd, s1, s2, hx, h1, h2⟩
    obtain ⟨a, b, hab⟩ := length_two _ h1
    obtain ⟨c, d, hcd⟩ := length_two _ h2
    exact ⟨_, build_0302 env rule alert t hs hc hd s1 s2 a b c d hx hab hcd⟩
  · intro hd extra
    exact build_0302_difftype env rule { alert with Extra := extra } t hs hc hd

/-- C5: in every notification the label `to_customer` is "no" exactly when the
rule's `Email` contains "only_cdn_devops" and the code is not "0303", and "yes"
in every other case; a "0303" notification always has "yes". -/
theorem C5_to_customer (n : Alert)
    (h : buildAlertmanagerMessage env rule alert = Except.ok (some n)) :
    (KV.get n.Labels "to_customer" = "no"
        ↔ (stringsContains rule.Email "only_cdn_devops" = true ∧ alert.Code ≠ "0303"))
    ∧ (¬ (stringsContains rule.Email "only_cdn_devops" = true ∧ alert.Code ≠ "0303") →
        KV.get n.Labels "to_customer" = "yes")
    ∧ (alert.Code = "0303" → KV.get n.Labels "to_customer" = "yes") := by
  have hl := (build_some_labels env rule alert n h).1
  have hget : KV.get n.Labels "to_customer" =
      if stringsContains rule.Email "only_cdn_devops" = true ∧ alert.Code ≠ "0303" then "no"
      else "yes" := by
    rw [hl]
    simp [KV.get, List.find?]
  refine ⟨?_, ?_, ?_⟩
  · rw [hget]
    by_cases hcond : stringsContains rule.Email "only_cdn_devops" = true ∧ alert.Code ≠ "0303"
    · simp [hcond]
    · simp only [hcond, if_false, iff_false]
      decide
  · intro hcond
    rw [hget, if_neg hcond]
  · intro h3
    rw [hget, if_neg (fun hcond => hcond.2 h3)]

/-- C6: for a present first-seen time and a code other than "1005", "1007" and
"0302", a notification is always returned, it is the same whatever `Extra` is,
and its description is the text of the code: with the response code for "1002",
the high threshold for "0303" and "0401", the low threshold for "0701", and the
empty string for a code outside the table. -/
theorem C6_plain_codes (t : Time) (hs : alert.StartsAt = some t)
    (h5 : alert.Code ≠ "1005") (h7 : alert.Code ≠ "1007") (h3 : alert.Code ≠ "0302") :
    (∃ n, buildAlertmanagerMessage env rule alert = Except.ok (some n))
    ∧ (∀ extra : String, buildAlertmanagerMessage env rule { alert with Extra := extra }
        = buildAlertmanagerMessage env rule alert)
    ∧ (alert.Code = "1002" → descriptionOf (buildAlertmanagerMessage env rule alert) =
        some ("threshold: gt " ++ env.fmt32 rule.THigh ++ rule.Unit ++ ", VALUE: "
          ++ env.fmt64 alert.Value ++ alert.Unit ++ ", http code: " ++ rule.ResponseCode))
    ∧ (alert.Code = "0303" ∨ alert.Code = "0401" →
        descriptionOf (buildAlertmanagerMessage env rule alert) =
          some ("threshold: gt " ++ env.fmt32 rule.THigh ++ rule.Unit ++ ", VALUE: "
            ++ env.fmt64 alert.Value ++ alert.Unit))
    ∧ (alert.Code = "0701" → descriptionOf (buildAlertmanagerMessage env rule alert) =
        some ("threshold: lt " ++ env.fmt32 rule.TLow ++ rule.Unit ++ ", VALUE: "
          ++ env.fmt64 alert.Value ++ alert.Unit))
    ∧ (alert.Code ∉ KV.keys ALERTING_NAME_EN →
        descriptionOf (buildAlertmanagerMessage env rule alert) = some "") := by
  refine ⟨?_, ?_, ?_, ?_, ?_, ?_⟩
  · by_cases h1 : alert.Code = "1002"
    · exact ⟨_, build_1002 env rule alert t hs h1⟩
    by_cases h33 : alert.Code = "0303"
    · exact ⟨_, build_0303 env rule alert t hs h33⟩
    by_cases h4 : alert.Code = "0401"
    · exact ⟨_, build_0401 env rule alert t hs h4⟩
    by_cases h71 : alert.Code = "0701"
    · exact ⟨_, build_0701 env rule alert t hs h71⟩
    exact ⟨_, build_other env rule alert t hs h1 h5 h7 h3 h33 h4 h71⟩
  · intro extra
    simp [buildAlertmanagerMessage, h5, h7, h3, initialResult]
  · intro h1
    rw [build_1002 env rule alert t hs h1, descriptionOf_set]
  · rintro (h33 | h4)
    · rw [build_0303 env rule alert t hs h33, descriptionOf_set]
    · rw [build_0401 env rule alert t hs h4, descriptionOf_set]
  · intro h71
    rw [build_0701 env rule alert t hs h71, descriptionOf_set]
  · intro hout
    simp only [KV.keys, ALERTING_NAME_EN, List.map, List.mem_cons, List.mem_singleton,
      List.mem_nil_iff, or_false, not_or] at hout
    obtain ⟨h1, -, -, -, h33, h4, h71⟩ := hout
    rw [build_other env rule alert t hs h1 h5 h7 h3 h33 h4 h71]
    by_cases he : stringsContains rule.Email "only_cdn_devops" = true <;>
      simp [descriptionOf, routedResult, initialResult, Alert.setLabel, KV.get, List.find?, he]

/-- C7: every notification has the seven label keys `alertname`, `severity`,
`rule_id`, `domain`, `customer`, `to_customer`, `zenlayer_aiop` and the one
annotation key `description`; `severity` is "critical", `rule_id` the alert's
code, `domain` the rule's domain, `customer` the alert's customer name,
`zenlayer_aiop` "yes", and `alertname` the entry of the code in the table of
seven codes, or the empty string for a code outside it. -/
theorem C7_labels (n : Alert)
    (h : buildAlertmanagerMessage env rule alert = Except.ok (some n)) :
    KV.keys n.Labels = ["alertname", "severity", "rule_id", "domain", "customer",
        "to_customer", "zenlayer_aiop"]
    ∧ KV.keys n.Annotations = ["description"]
    ∧ KV.get n.Labels "severity" = "critical"
    ∧ KV.get n.Labels "rule_id" = alert.Code
    ∧ KV.get n.Labels "domain" = rule.Domain
    ∧ KV.get n.Labels "customer" = alert.CustomerName
    ∧ KV.get n.Labels "zenlayer_aiop" = "yes"
    ∧ KV.get n.Labels "alertname" = KV.get ALERTING_NAME_EN alert.Code
    ∧ KV.keys ALERTING_NAME_EN = ["1002", "1005", "1007", "0302", "0303", "0401", "0701"]
    ∧ (alert.Code ∉ KV.keys ALERTING_NAME_EN → KV.get n.Labels "alertname" = "") := by
  obtain ⟨hl, ha⟩ := build_some_labels env rule alert n h
  have hname : KV.get n.Labels "alertname" = KV.get ALERTING_NAME_EN alert.Code := by
    rw [hl]; simp [KV.get, List.find?]
  refine ⟨?_, ha, ?_, ?_, ?_, ?_, ?_, hname, rfl, ?_⟩
  · rw [hl]; rfl
  · rw [hl]; simp [KV.get, List.find?]
  · rw [hl]; simp [KV.get, List.find?]
  · rw [hl]; simp [KV.get, List.find?]
  · rw [hl]; simp [KV.get, List.find?]
  · rw [hl]; simp [KV.get, List.find?]
  · intro hout
    rw [hname]
    simp only [KV.keys, ALERTING_NAME_EN, List.map, List.mem_cons, List.mem_singleton,
      List.mem_nil_iff, or_false, not_or] at hout
    obtain ⟨h1, h2, h3, h4, h5, h6, h7⟩ := hout
    simp [KV.get, ALERTING_NAME_EN, List.find?, Ne.symm h1, Ne.symm h2, Ne.symm h3, Ne.symm h4,
      Ne.symm h5, Ne.symm h6, Ne.symm h7]

/-! ### The rule map and the batch -/

theorem lookup_insert (m : RuleMap F32) (k id : Int) (r : AlertingRule F32) :
    RuleMap.lookup (RuleMap.insert m k r) id
      = if k = id then some r else RuleMap.lookup m id := by
  induction m with
  | nil => simp [RuleMap.insert, RuleMap.lookup]
  | cons e m ih =>
    obtain ⟨ek, er⟩ := e
    by_cases h : ek = k
    · subst h
      by_cases h2 : ek = id <;> simp [RuleMap.insert, RuleMap.lookup, h2]
    · by_cases h2 : ek = id
      · subst h2
        simp [RuleMap.insert, RuleMap.lookup, h, Ne.symm h]
      · simp [RuleMap.insert, RuleMap.lookup, h, h2, ih]

theorem lookup_foldl (rules : List (AlertingRule F32)) (m : RuleMap F32) (id : Int) :
    RuleMap.lookup (rules.foldl (fun m rule => RuleMap.insert m rule.RuleID rule) m) id
      = match (rules.filter (fun r => decide (r.RuleID = id))).getLast? with
        | some r => some r
        | none => RuleMap.lookup m id := by
  induction rules generalizing m with
  | nil => simp
  | cons r rs ih =>
    rw [List.foldl_cons, ih, lookup_insert]
    by_cases hr : r.RuleID = id
    · simp only [List.filter_cons, hr, decide_True, if_true, List.getLast?_cons]
      cases (rs.filter (fun r => decide (r.RuleID = id))).getLast? <;> rfl
    · simp [List.filter_cons, hr]

theorem lookup_buildRuleMap (rules : List (AlertingRule F32)) (id : Int) :
    RuleMap.lookup (buildRuleMap rules) id
      = (rules.filter (fun r => decide (r.RuleID = id))).getLast? := by
  unfold buildRuleMap
  rw [lookup_foldl]
  cases (rules.filter (fun r => decide (r.RuleID = id))).getLast? <;> rfl

theorem compileBatch_eq (m : RuleMap F32) (alerts : List (Alerting F64)) (batch : List Alert) :
    compileBatch env m alerts batch
      = Except.map (fun rs => batch ++ rs.filterMap id)
          (List.mapM (fun p : AlertingRule F32 × Alerting F64 =>
              buildAlertmanagerMessage env p.1 p.2)
            (alerts.filterMap (fun a => (RuleMap.lookup m a.RuleID).map (fun r => (r, a))))) := by
  induction alerts generalizing batch with
  | nil =>
    simp only [compileBatch, List.filterMap_nil, List.mapM_nil]
    simp [Except.map, pure, Except.pure]
  | cons a rest ih =>
    unfold compileBatch
    cases hl : RuleMap.lookup m a.RuleID with
    | none => simp [List.filterMap_cons, hl, ih]
    | some r =>
      simp only [List.filterMap_cons, hl, Option.map_some', List.mapM_cons]
      cases hb : buildAlertmanagerMessage env r a with
      | error p => rfl
      | ok res =>
        cases res with
        | none =>
          simp only [ih]
          cases List.mapM (fun p : AlertingRule F32 × Alerting F64 =>
              buildAlertmanagerMessage env p.1 p.2)
            (rest.filterMap (fun a => (RuleMap.lookup m a.RuleID).map (fun r => (r, a)))) <;> rfl
        | some n =>
          simp only [ih]
          cases List.mapM (fun p : AlertingRule F32 × Alerting F64 =>
              buildAlertmanagerMessage env p.1 p.2)
            (rest.filterMap (fun a => (RuleMap.lookup m a.RuleID).map (fun r => (r, a)))) with
          | error p => rfl
          | ok rs => simp [Except.map, bind, Except.bind, pure, Except.pure]

theorem compileBatch_ok (m : RuleMap F32) (alerts : List (Alerting F64))
    (batch out : List Alert) (h : compileBatch env m alerts batch = Except.ok out) :
    ∃ fresh, out = batch ++ fresh ∧ fresh.length ≤ alerts.length
      ∧ (∀ n ∈ fresh, ∃ a ∈ alerts, ∃ r, RuleMap.lookup m a.RuleID = some r
          ∧ buildAlertmanagerMessage env r a = Except.ok (some n))
      ∧ ((∃ a ∈ alerts, RuleMap.lookup m a.RuleID = none) → fresh.length < alerts.length) := by
  induction alerts generalizing batch with
  | nil =>
    simp only [compileBatch, Except.ok.injEq] at h
    exact ⟨[], by simp [h], by simp, by simp, by simp⟩
  | cons a rest ih =>
    unfold compileBatch at h
    cases hl : RuleMap.lookup m a.RuleID with
    | none =>
      simp only [hl] at h
      obtain ⟨fresh, h1, h2, h3, -⟩ := ih batch h
      refine ⟨fresh, h1, by simp; omega, ?_, fun _ => by simp; omega⟩
      intro n hn
      obtain ⟨a', ha', r, hr⟩ := h3 n hn
      exact ⟨a', List.mem_cons_of_mem _ ha', r, hr⟩
    | some r =>
      simp only [hl] at h
      cases hb : buildAlertmanagerMessage env r a with
      | error p => simp [hb] at h
      | ok res =>
        cases res with
        | none =>
          simp only [hb] at h
          obtain ⟨fresh, h1, h2, h3, h4⟩ := ih batch h
          refine ⟨fresh, h1, by simp; omega, ?_, fun _ => by simp; omega⟩
          intro n hn
          obtain ⟨a', ha', r', hr'⟩ := h3 n hn
          exact ⟨a', List.mem_cons_of_mem _ ha', r', hr'⟩
        | some n0 =>
          simp only [hb] at h
          obtain ⟨fresh, h1, h2, h3, h4⟩ := ih (batch ++ [n0]) h
          refine ⟨n0 :: fresh, by simp [h1], by simp; omega, ?_, ?_⟩
          · intro n hn
            rcases List.mem_cons.mp hn with rfl | hn
            · exact ⟨a, List.mem_cons_self _ _, r, hl, hb⟩
            · obtain ⟨a', ha', r', hr'⟩ := h3 n hn
              exact ⟨a', List.mem_cons_of_mem _ ha', r', hr'⟩
          · rintro ⟨a', ha', hnone⟩
            rcases List.mem_cons.mp ha' with rfl | ha'
            · rw [hl] at hnone; cases hnone
            · have := h4 ⟨a', ha', hnone⟩
              simp; omega

theorem compileBatch_skipped (m : RuleMap F32) (alerts : List (Alerting F64))
    (batch : List Alert)
    (h : ∀ a ∈ alerts, ∀ r, RuleMap.lookup m a.RuleID = some r →
      buildAlertmanagerMessage env r a = Except.ok none) :
    compileBatch env m alerts batch = Except.ok batch := by
  induction alerts with
  | nil => rfl
  | cons a rest ih =>
    have ih2 := ih (fun a' ha' => h a' (List.mem_cons_of_mem _ ha'))
    unfold compileBatch
    cases hl : RuleMap.lookup m a.RuleID with
    | none => simpa using ih2
    | some r =>
      simp only [h a (List.mem_cons_self _ _) r hl]
      exact ih2

/-- C8: the batch of a cycle is, in the order of the alerts, the notifications
returned by `buildAlertmanagerMessage` for the alerts that have a rule, each
with the last rule of the list that bears the alert's rule identifier; a panic
of one of these calls is the outcome of the loop.  Hence each notification of a
batch comes from an alert and a rule of the same identifier, the batch is no
longer than the list of alerts, and shorter when an alert has no rule. -/
theorem C8_batch (rules : List (AlertingRule F32)) (alerts : List (Alerting F64)) :
    compileBatch env (buildRuleMap rules) alerts []
      = Except.map (fun rs => rs.filterMap id)
          (List.mapM (fun p : AlertingRule F32 × Alerting F64 =>
              buildAlertmanagerMessage env p.1 p.2)
            (alerts.filterMap (fun a =>
              ((rules.filter (fun r => decide (r.RuleID = a.RuleID))).getLast?).map
                (fun r => (r, a)))))
    ∧ ∀ out, compileBatch env (buildRuleMap rules) alerts [] = Except.ok out →
        (∀ n ∈ out, ∃ a ∈ alerts, ∃ r ∈ rules, r.RuleID = a.RuleID
          ∧ buildAlertmanagerMessage env r a = Except.ok (some n))
        ∧ out.length ≤ alerts.length
        ∧ ((∃ a ∈ alerts, ∀ r ∈ rules, r.RuleID ≠ a.RuleID) → out.length < alerts.length) := by
  constructor
  · rw [compileBatch_eq]
    simp only [lookup_buildRuleMap, List.nil_append]
  · intro out h
    obtain ⟨fresh, h1, h2, h3, h4⟩ := compileBatch_ok env _ alerts [] out h
    simp only [List.nil_append] at h1
    subst h1
    refine ⟨?_, h2, ?_⟩
    · intro n hn
      obtain ⟨a, ha, r, hl, hb⟩ := h3 n hn
      rw [lookup_buildRuleMap] at hl
      have hmem := List.mem_of_getLast?_eq_some hl
      rw [List.mem_filter] at hmem
      exact ⟨a, ha, r, hmem.1, by simpa using hmem.2, hb⟩
    · rintro ⟨a, ha, hno⟩
      apply h4
      refine ⟨a, ha, ?_⟩
      rw [lookup_buildRuleMap, List.getLast?_eq_none_iff, List.filter_eq_nil_iff]
      intro r hr
      simpa using hno r hr

/-- The external calls of a cycle.  When the alert query fails or returns
no alert, the alert query is the only call.  Otherwise the rule query follows;
when it fails, when it returns no rule, when every alert is without a rule or
rejected, or when the compiled batch is empty, there is no delivery; when the
batch is compiled and not empty there is one delivery, of the whole batch, and
it is the last call; when the compilation panics the cycle ends in that panic
without a delivery.  Whatever happens, no delivery carries an empty batch and
there is at most one delivery. -/
theorem fn_calls (src : Sources F32 F64) :
    ((src.getAlerting = none ∨ src.getAlerting = some []) →
        (fn env src).1 = [Call.getAlerting])
    ∧ (∀ alerts, src.getAlerting = some alerts → alerts ≠ [] →
        (src.getAlertingRule = none →
          (fn env src).1 = [Call.getAlerting, Call.getAlertingRule])
        ∧ (src.getAlertingRule = some [] →
          (fn env src).1 = [Call.getAlerting, Call.getAlertingRule])
        ∧ (∀ rules, src.getAlertingRule = some rules →
            ((∀ a ∈ alerts, ∀ r, RuleMap.lookup (buildRuleMap rules) a.RuleID = some r →
                buildAlertmanagerMessage env r a = Except.ok none) →
              (fn env src).1 = [Call.getAlerting, Call.getAlertingRule])
            ∧ (compileBatch env (buildRuleMap rules) alerts [] = Except.ok [] →
              (fn env src).1 = [Call.getAlerting, Call.getAlertingRule])
            ∧ (∀ batch, batch ≠ [] →
              compileBatch env (buildRuleMap rules) alerts [] = Except.ok batch →
              (fn env src).1 = [Call.getAlerting, Call.getAlertingRule, Call.post batch])
            ∧ (∀ p, compileBatch env (buildRuleMap rules) alerts [] = Except.error p →
              fn env src = ([Call.getAlerting, Call.getAlertingRule], Except.error p))))
    ∧ (∀ batch, Call.post batch ∈ (fn env src).1 → batch ≠ [])
    ∧ ((fn env src).1.filter Call.isPost).length ≤ 1 := by
  have hempty : ∀ alerts rules, src.getAlerting = some alerts → alerts ≠ [] →
      src.getAlertingRule = some rules →
      compileBatch env (buildRuleMap rules) alerts [] = Except.ok [] →
      (fn env src).1 = [Call.getAlerting, Call.getAlertingRule] := by
    intro alerts rules ha hne hr hb
    simp [fn, ha, hr, hb, hne]
  refine ⟨?_, ?_, ?_, ?_⟩
  · rintro (h | h) <;> simp [fn, h]
  · intro alerts ha hne
    refine ⟨?_, ?_, ?_⟩
    · intro hr
      simp [fn, ha, hr, hne]
    · intro hr
      apply hempty alerts [] ha hne hr
      apply compileBatch_skipped
      intro a _ r hl
      simp [buildRuleMap, RuleMap.lookup] at hl
    · intro rules hr
      refine ⟨?_, hempty alerts rules ha hne hr, ?_, ?_⟩
      · intro hall
        exact hempty alerts rules ha hne hr (compileBatch_skipped env _ alerts [] hall)
      · intro batch hbne hb
        simp [fn, ha, hr, hb, hne, hbne]
      · intro p hb
        simp [fn, ha, hr, hb, hne]
  · intro batch hmem
    unfold fn at hmem
    cases ha : src.getAlerting with
    | none => simp [ha] at hmem
    | some alerts =>
      simp only [ha] at hmem
      split_ifs at hmem with hlen
      · simp at hmem
      · cases hr : src.getAlertingRule with
        | none => simp [hr] at hmem
        | some rules =>
          simp only [hr] at hmem
          cases hb : compileBatch env (buildRuleMap rules) alerts [] with
          | error p => simp [hb] at hmem
          | ok out =>
            simp only [hb] at hmem
            split_ifs at hmem with hout
            · simp at hmem
            · simp at hmem
              subst hmem
              simpa using hout
  · unfold fn
    cases ha : src.getAlerting with
    | none => simp [Call.isPost]
    | some alerts =>
      simp only []
      split_ifs with hlen
      · simp [Call.isPost]
      · cases hr : src.getAlertingRule with
        | none => simp [Call.isPost]
        | some rules =>
          simp only []
          cases hb : compileBatch env (buildRuleMap rules) alerts [] with
          | error p => simp [Call.isPost]
          | ok out =>
            simp only []
            split_ifs with hout <;> simp [Call.isPost]

end Build

/-- C8 on two rules of identifier 7 and two alerts, the first without a rule:
the batch is the one notification of the second alert, built with the last of
the two rules, and it is shorter than the list of alerts. -/
theorem C8_batch_witness :
    compileBatch envUTC (buildRuleMap sampleRules) sampleAlerts [] = Except.ok [sampleNotification]
    ∧ [sampleNotification].length < sampleAlerts.length :=
  have h : compileBatch envUTC (buildRuleMap sampleRules) sampleAlerts []
      = Except.ok [sampleNotification] := by rfl
  ⟨h, ((C8_batch envUTC sampleRules sampleAlerts).2 [sampleNotification] h).2.2
    ⟨{ sampleAlert "1002" "" (some sampleTime) with RuleID := 9 }, by simp [sampleAlerts],
      by decide⟩⟩

/-- The calls of a cycle on the sample rules and alerts: the two queries and one
delivery of the batch of one notification. -/
theorem fn_calls_sample :
    (fn envUTC { getAlerting := some sampleAlerts, getAlertingRule := some sampleRules }).1
      = [Call.getAlerting, Call.getAlertingRule, Call.post [sampleNotification]] :=
  ((fn_calls envUTC
    { getAlerting := some sampleAlerts, getAlertingRule := some sampleRules }).2.1
      sampleAlerts rfl (by simp [sampleAlerts])).2.2 sampleRules rfl |>.2.2.1
        [sampleNotification] (by simp) (by rfl)

/-- C10, the code on three alerts of rule 7 of which the second has no
first-seen time: both queries succeed and return rows, the first and the third
alert compile to notifications, yet the cycle makes no delivery and ends in the
panic of the second alert. -/
theorem C10_panic_skips_delivery :
    fn envUTC { getAlerting := some panicAlerts, getAlertingRule := some [sampleRule "" 0] }
      = ([Call.getAlerting, Call.getAlertingRule], Except.error GoPanic.nilDereference)
    ∧ descriptionOf (buildAlertmanagerMessage envUTC (sampleRule "" 0)
        (sampleAlert "1002" "" (some sampleTime)))
      = some "threshold: gt 5.00%, VALUE: 12.34%, http code: 500"
    ∧ descriptionOf (buildAlertmanagerMessage envUTC (sampleRule "" 0)
        (sampleAlert "0401" "" (some sampleTime)))
      = some "threshold: gt 5.00%, VALUE: 12.34%"
    ∧ buildAlertmanagerMessage envUTC (sampleRule "" 0) (sampleAlert "1002" "" none)
      = Except.error GoPanic.nilDereference := by
  refine ⟨?_, ?_, ?_, ?_⟩
  · rfl
  · decide
  · decide
  · rfl

/-- C5 on a "0303" alert of a rule whose `Email` holds the marker: the label is
"yes". -/
theorem C5_to_customer_witness :
    stringsContains "a@x.org,only_cdn_devops@x.org" "only_cdn_devops" = true
    ∧ KV.get (((routedResult envUTC (sampleRule "a@x.org,only_cdn_devops@x.org" 0)
          (sampleAlert "0303" "" (some sampleTime)) sampleTime).setLabel "to_customer"
          "yes").annotate "description" "threshold: gt 5.00%, VALUE: 12.34%").Labels
        "to_customer" = "yes" :=
  ⟨by decide,
    (C5_to_customer envUTC (sampleRule "a@x.org,only_cdn_devops@x.org" 0)
      (sampleAlert "0303" "" (some sampleTime)) _
      (build_0303 envUTC (sampleRule "a@x.org,only_cdn_devops@x.org" 0)
        (sampleAlert "0303" "" (some sampleTime)) sampleTime rfl rfl)).2.2 rfl⟩

/-- C6 on the example of the source for code "1002". -/
theorem C6_plain_codes_witness :
    descriptionOf (buildAlertmanagerMessage envUTC (sampleRule "" 0)
        (sampleAlert "1002" "" (some sampleTime)))
      = some "threshold: gt 5.00%, VALUE: 12.34%, http code: 500" :=
  (C6_plain_codes envUTC (sampleRule "" 0) (sampleAlert "1002" "" (some sampleTime)) sampleTime
    rfl (by decide) (by decide) (by decide)).2.2.1 rfl

/-- C7 on a "1002" alert: the label `alertname` is the entry of the table. -/
theorem C7_labels_witness :
    KV.get ((routedResult envUTC (sampleRule "" 0) (sampleAlert "1002" "" (some sampleTime))
        sampleTime).annotate "description"
        "threshold: gt 5.00%, VALUE: 12.34%, http code: 500").Labels "alertname"
      = "HTTP Code Sum Error(1002)" :=
  (C7_labels envUTC (sampleRule "" 0) (sampleAlert "1002" "" (some sampleTime)) _
    (build_1002 envUTC (sampleRule "" 0) (sampleAlert "1002" "" (some sampleTime)) sampleTime
      rfl rfl)).2.2.2.2.2.2.2.1

/-- C2 on a rule with `DiffType` 3 and a well-formed diagnostic string: the
result is nil. -/
theorem C2_bandwidth_arity_witness :
    buildAlertmanagerMessage envUTC (sampleRule "" 3)
        (sampleAlert "0302" "1600755000:7.2886,1600150200:26158.3969" (some sampleTime))
      = Except.ok none :=
  (C2_bandwidth_arity envUTC (sampleRule "" 3)
    (sampleAlert "0302" "" (some sampleTime)) sampleTime rfl rfl).2.2
    ⟨by decide, by decide⟩ "1600755000:7.2886,1600150200:26158.3969"

/-- C3, the code at the example of the claim in a process whose local zone is
UTC: the two instants are written in UTC, not at +08:00, while `StartsAt` of the
same notification is in Asia/Shanghai; in a process whose local zone is
Asia/Shanghai the text is the one of the claim. -/
theorem C3_detail_uses_local_zone :
    descriptionOf (buildAlertmanagerMessage envUTC (sampleRule "" 1)
        (sampleAlert "0302" "1600755000:7.2886,1600150200:26158.3969" (some sampleTime)))
      = some ("threshold: (gt 5.00% || lt -1.00%), VALUE: 12.34%, detail: "
          ++ "2020-09-22T06:10:00Z > 7.2886Mb/s, 2020-09-15T06:10:00Z > 26158.3969Mb/s")
    ∧ startsAtZoneOf (buildAlertmanagerMessage envUTC (sampleRule "" 1)
        (sampleAlert "0302" "1600755000:7.2886,1600150200:26158.3969" (some sampleTime)))
      = some "Asia/Shanghai"
    ∧ descriptionOf (buildAlertmanagerMessage envShanghai (sampleRule "" 1)
        (sampleAlert "0302" "1600755000:7.2886,1600150200:26158.3969" (some sampleTime)))
      = some ("threshold: (gt 5.00% || lt -1.00%), VALUE: 12.34%, detail: "
          ++ "2020-09-22T14:10:00+08:00 > 7.2886Mb/s, "
          ++ "2020-09-15T14:10:00+08:00 > 26158.3969Mb/s") := by
  refine ⟨?_, ?_, ?_⟩ <;> decide

/-- C4 refuted for a field outside the 64-bit range: the decoding of
"9223372036854775808" fails, yet the instant written is 2^63-1 seconds after the
epoch, not the epoch.  And with the first-seen time absent no notification is
produced for a diagnostic string whose timestamp fields fail to decode: the call
panics. -/
theorem C4_range_error_counterexample :
    (parseInt "9223372036854775808").2 = some NumError.ErrRange
    ∧ descriptionOf (buildAlertmanagerMessage envUTC (sampleRule "" 1)
        (sampleAlert "0302" "9223372036854775808:1,0:2" (some sampleTime)))
      = some ("threshold: (gt 5.00% || lt -1.00%), VALUE: 12.34%, detail: "
          ++ "292277026596-12-04T15:30:07Z > 1Mb/s, 1970-01-01T00:00:00Z > 2Mb/s")
    ∧ descriptionOf (buildAlertmanagerMessage envUTC (sampleRule "" 1)
        (sampleAlert "0302" "9223372036854775808:1,0:2" (some sampleTime)))
      ≠ some ("threshold: (gt 5.00% || lt -1.00%), VALUE: 12.34%, detail: "
          ++ envUTC.rfc3339 (timeUnix envUTC 0) ++ " > 1Mb/s, "
          ++ envUTC.rfc3339 (timeUnix envUTC 0) ++ " > 2Mb/s")
    ∧ buildAlertmanagerMessage envUTC (sampleRule "" 1) (sampleAlert "0302" ":1,12x:2" none)
      = Except.error GoPanic.nilDereference := by
  refine ⟨?_, ?_, ?_, ?_⟩
  · decide
  · decide
  · decide
  · rfl

/-- C4 as amended: for a present first-seen time, code "0302", `DiffType` 1 or 7
and a diagnostic string of 2 segments of 2 fields, a notification is produced
whatever the timestamp fields hold, and the instant written for a segment is the
value the decoder returns for its timestamp field.  That value is 0, the Unix
epoch, when the decoding fails with a syntax error, as it does for the empty
field.  When the decoding fails with a range error it is the bound of the
64-bit range on the side of the field's sign, -2^63 for a field that begins with
"-" and else 2^63-1; so it is for every numeral outside the 64-bit range, which
is decoded as the nearest bound. -/
theorem C4_decode_failure {F32 F64 : Type} (env : Env F32 F64) (rule : AlertingRule F32)
    (alert : Alerting F64) (t : Time) (hs : alert.StartsAt = some t)
    (hc : alert.Code = "0302") (hd : rule.DiffType = 1 ∨ rule.DiffType = 7)
    (s1 s2 a b c d : String) (hx : stringsSplit alert.Extra ',' = [s1, s2])
    (h1 : stringsSplit s1 ':' = [a, b]) (h2 : stringsSplit s2 ':' = [c, d]) :
    (∃ n, buildAlertmanagerMessage env rule alert = Except.ok (some n))
    ∧ descriptionOf (buildAlertmanagerMessage env rule alert) =
        some ("threshold: (gt " ++ env.fmt32 rule.THigh ++ rule.Unit ++ " || lt -"
          ++ env.fmt32 rule.TLow ++ rule.Unit ++ "), VALUE: " ++ env.fmt64 alert.Value
          ++ alert.Unit ++ ", detail: " ++ env.rfc3339 (timeUnix env (parseInt a).1) ++ " > "
          ++ b ++ "Mb/s, " ++ env.rfc3339 (timeUnix env (parseInt c).1) ++ " > " ++ d
          ++ "Mb/s")
    ∧ ∀ x ∈ [a, c],
        ((parseInt x).2 = some NumError.ErrSyntax → (parseInt x).1 = 0)
        ∧ ((parseInt x).2 = some NumError.ErrRange →
            (parseInt x).1 = if x.data.head? = some '-' then -2 ^ 63 else 2 ^ 63 - 1)
        ∧ (x = "" → parseInt x = (0, some NumError.ErrSyntax))
        ∧ (∀ ds : List Char, ds ≠ [] → (∀ ch ∈ ds, '0' ≤ ch ∧ ch ≤ '9') →
            ((x.data = ds ∨ x.data = '+' :: ds) → 2 ^ 63 ≤ decimalFrom 0 ds →
              parseInt x = (2 ^ 63 - 1, some NumError.ErrRange))
            ∧ (x.data = '-' :: ds → 2 ^ 63 < decimalFrom 0 ds →
              parseInt x = (-2 ^ 63, some NumError.ErrRange))) := by
  have hb := build_0302 env rule alert t hs hc hd s1 s2 a b c d hx h1 h2
  refine ⟨⟨_, hb⟩, ?_, fun x _ => parseInt_failure x⟩
  rw [hb, descriptionOf_set]

/-- C4 as amended, on an empty and a non-numeric timestamp field, both written as
the Unix epoch, and on a numeral below and a numeral above the 64-bit range,
decoded as -2^63 and as 2^63-1. -/
theorem C4_decode_failure_witness :
    (parseInt "").2 = some NumError.ErrSyntax ∧ (parseInt "12x").2 = some NumError.ErrSyntax
    ∧ descriptionOf (buildAlertmanagerMessage envUTC (sampleRule "" 7)
        (sampleAlert "0302" ":1,12x:2" (some sampleTime)))
      = some ("threshold: (gt 5.00% || lt -1.00%), VALUE: 12.34%, detail: "
          ++ "1970-01-01T00:00:00Z > 1Mb/s, 1970-01-01T00:00:00Z > 2Mb/s")
    ∧ (parseInt "-9223372036854775809").2 = some NumError.ErrRange
    ∧ (parseInt "9223372036854775808").2 = some NumError.ErrRange
    ∧ (parseInt "-9223372036854775809").1 = -2 ^ 63
    ∧ (parseInt "9223372036854775808").1 = 2 ^ 63 - 1 := by
  have hsyn := C4_decode_failure envUTC (sampleRule "" 7)
    (sampleAlert "0302" ":1,12x:2" (some sampleTime))
    sampleTime rfl rfl (Or.inr rfl) ":1" "12x:2" "" "1" "12x" "2"
    (by decide) (by decide) (by decide)
  have hrange := C4_decode_failure envUTC (sampleRule "" 7)
    (sampleAlert "0302" "-9223372036854775809:1,9223372036854775808:2" (some sampleTime))
    sampleTime rfl rfl (Or.inr rfl) "-9223372036854775809:1" "9223372036854775808:2"
    "-9223372036854775809" "1" "9223372036854775808" "2"
    (by decide) (by decide) (by decide)
  have hlow := (hrange.2.2 "-9223372036854775809" (by simp)).2.1 (by decide)
  have hhigh := (hrange.2.2 "9223372036854775808" (by simp)).2.1 (by decide)
  refine ⟨by decide, by decide, hsyn.2.1, by decide, by decide, ?_, ?_⟩
  · rw [hlow]; decide
  · rw [hhigh]; decide

/-- C9, the code on an alert whose first-seen time is absent: the read through
the nil pointer `alert.StartsAt` panics, for every rule and every other field of
the alert; with a first-seen time present the same call does not panic. -/
theorem C9_nil_startsAt_panics {F32 F64 : Type} (env : Env F32 F64) (rule : AlertingRule F32)
    (alert : Alerting F64) :
    buildAlertmanagerMessage env rule { alert with StartsAt := none }
      = Except.error GoPanic.nilDereference
    ∧ ∀ t : Time, ∃ r,
        buildAlertmanagerMessage env rule { alert with StartsAt := some t } = Except.ok r :=
  ⟨build_nil env rule { alert with StartsAt := none } rfl,
    fun t => build_present_ok env rule { alert with StartsAt := some t } t rfl⟩

/-- C1 on the example of the source: the description holds the count and the
detail of the diagnostic string. -/
theorem C1_count_codes_witness :
    descriptionOf (buildAlertmanagerMessage envUTC (sampleRule "" 0)
        (sampleAlert "1005" "1600706700:8.670:(6935/79986):410 499:410/6914 499/21"
          (some sampleTime)))
      = some "threshold: gt 5.00%, VALUE: 12.34%, count: (6935/79986), detail: 410/6914 499/21"
    ∧ stringsContains
        "threshold: gt 5.00%, VALUE: 12.34%, count: (6935/79986), detail: 410/6914 499/21"
        "count: (6935/79986)" = true
    ∧ stringsContains
        "threshold: gt 5.00%, VALUE: 12.34%, count: (6935/79986), detail: 410/6914 499/21"
        "detail: 410/6914 499/21" = true :=
  ⟨(C1_count_codes envUTC (sampleRule "" 0)
      (sampleAlert "1005" "1600706700:8.670:(6935/79986):410 499:410/6914 499/21"
        (some sampleTime)) sampleTime rfl (Or.inl rfl)).2.2
      "1600706700" "8.670" "(6935/79986)" "410 499" "410/6914 499/21" (by decide),
    by decide, by decide⟩

end Ana2am
